import Mathlib

/-!
# TV input HAL interface (`include/hardware/tv_input.h`)

A shallow embedding of the declarations of the TV input hardware module
interface: its constants, enumerations, records and the documented return
codes of the four operations of `tv_input_device_t`.
-/

namespace TvInput

/-! ## Constants -/

/-- The id of this module: `#define TV_INPUT_HARDWARE_MODULE_ID "tv_input"`. -/
def TV_INPUT_HARDWARE_MODULE_ID : String := "tv_input"

/-- The default device name: `#define TV_INPUT_DEFAULT_DEVICE "default"`. -/
def TV_INPUT_DEFAULT_DEVICE : String := "default"

/-! ## Enumerations -/

/-- The members of `enum tv_input_type`. -/
inductive tv_input_type_t where
  | TV_INPUT_TYPE_HDMI
  | TV_INPUT_TYPE_BUILT_IN_TUNER
  | TV_INPUT_TYPE_PASSTHROUGH
  deriving DecidableEq

/-- The integer value the header assigns to each member of `tv_input_type_t`. -/
def tv_input_type_t.toInt : tv_input_type_t → Int
  | .TV_INPUT_TYPE_HDMI => 1
  | .TV_INPUT_TYPE_BUILT_IN_TUNER => 2
  | .TV_INPUT_TYPE_PASSTHROUGH => 3

/-- The members of `tv_input_type_t`, in declaration order. -/
def tv_input_type_t.members : List tv_input_type_t :=
  [.TV_INPUT_TYPE_HDMI, .TV_INPUT_TYPE_BUILT_IN_TUNER, .TV_INPUT_TYPE_PASSTHROUGH]

/-- The members of the anonymous enum behind `tv_input_event_type_t`. -/
inductive tv_input_event_type_t where
  | TV_INPUT_EVENT_DEVICE_AVAILABLE
  | TV_INPUT_EVENT_DEVICE_UNAVAILABLE
  | TV_INPUT_EVENT_STREAM_CONFIGURATIONS_CHANGED
  deriving DecidableEq

/-- The integer value the header assigns to each member of `tv_input_event_type_t`. -/
def tv_input_event_type_t.toInt : tv_input_event_type_t → Int
  | .TV_INPUT_EVENT_DEVICE_AVAILABLE => 1
  | .TV_INPUT_EVENT_DEVICE_UNAVAILABLE => 2
  | .TV_INPUT_EVENT_STREAM_CONFIGURATIONS_CHANGED => 3

/-- The members of `tv_input_event_type_t`, in declaration order. -/
def tv_input_event_type_t.members : List tv_input_event_type_t :=
  [.TV_INPUT_EVENT_DEVICE_AVAILABLE, .TV_INPUT_EVENT_DEVICE_UNAVAILABLE,
   .TV_INPUT_EVENT_STREAM_CONFIGURATIONS_CHANGED]

/-- The members of the anonymous enum behind `tv_stream_type_t`. The header
keeps `TV_STREAM_TYPE_BUFFER_PRODUCER = 2` inside a TODO comment only, so it
is not a member. -/
inductive tv_stream_type_t where
  | TV_STREAM_TYPE_INDEPENDENT_VIDEO_SOURCE
  deriving DecidableEq

/-- The integer value the header assigns to each member of `tv_stream_type_t`. -/
def tv_stream_type_t.toInt : tv_stream_type_t → Int
  | .TV_STREAM_TYPE_INDEPENDENT_VIDEO_SOURCE => 1

/-- The members of `tv_stream_type_t`, in declaration order. -/
def tv_stream_type_t.members : List tv_stream_type_t :=
  [.TV_STREAM_TYPE_INDEPENDENT_VIDEO_SOURCE]

/-- Reading an integer as a `tv_stream_type_t`: the member carrying that
value, if there is one. -/
def tv_stream_type_t.ofInt (v : Int) : Option tv_stream_type_t :=
  tv_stream_type_t.members.find? (fun t => decide (t.toInt = v))

/-- The value the header's TODO comment sets aside for the buffer producer
stream type (`/* TODO: TV_STREAM_TYPE_BUFFER_PRODUCER = 2, */`). -/
def TV_STREAM_TYPE_BUFFER_PRODUCER_reserved : Int := 2

/-! ## Records -/

/-- The record `tv_input_device_info_t`: a device id and the type of the
physical TV input. -/
structure tv_input_device_info_t where
  device_id : Int
  type : tv_input_type_t
  deriving DecidableEq

/-- The record `tv_input_event_t`: the event type and the single member
`device_info` of its anonymous union. -/
structure tv_input_event_t where
  type : tv_input_event_type_t
  device_info : tv_input_device_info_t
  deriving DecidableEq

/-- The fields of an event the header marks relevant for its type
(`TV_INPUT_EVENT_DEVICE_AVAILABLE`: all fields are relevant;
`TV_INPUT_EVENT_DEVICE_UNAVAILABLE` and
`TV_INPUT_EVENT_STREAM_CONFIGURATIONS_CHANGED`: only `device_id` is
relevant): the event type, the device id, and the input type when it is
relevant. -/
def tv_input_event_t.relevant (e : tv_input_event_t) :
    tv_input_event_type_t × Int × Option tv_input_type_t :=
  match e.type with
  | .TV_INPUT_EVENT_DEVICE_AVAILABLE =>
      (e.type, e.device_info.device_id, some e.device_info.type)
  | .TV_INPUT_EVENT_DEVICE_UNAVAILABLE => (e.type, e.device_info.device_id, none)
  | .TV_INPUT_EVENT_STREAM_CONFIGURATIONS_CHANGED =>
      (e.type, e.device_info.device_id, none)

/-- The record `tv_stream_config_t`; the two `uint32_t` sizes are naturals. -/
structure tv_stream_config_t where
  stream_id : Int
  type : tv_stream_type_t
  max_video_width : Nat
  max_video_height : Nat
  deriving DecidableEq

/-! ## The device record `tv_input_device_t` -/

/-- The kinds of member of `tv_input_device_t`: the embedded
`struct hw_device_t`, a function pointer, and an array `void* reserved[n]`. -/
inductive member_kind where
  | header
  | operation
  | reserved_slots (n : Nat)
  deriving DecidableEq

/-- One member of a record: its name and its kind. -/
structure member where
  name : String
  kind : member_kind
  deriving DecidableEq

/-- The members of `struct tv_input_device`, in declaration order. -/
def tv_input_device_t_members : List member :=
  [⟨"common", .header⟩,
   ⟨"initialize", .operation⟩,
   ⟨"get_stream_configurations", .operation⟩,
   ⟨"open_stream", .operation⟩,
   ⟨"close_stream", .operation⟩,
   ⟨"reserved", .reserved_slots 16⟩]

/-- Whether a member is a function pointer. -/
def member.is_operation (m : member) : Bool :=
  match m.kind with
  | .operation => true
  | _ => false

/-- The number of reserved slots a member holds. -/
def member.slots (m : member) : Nat :=
  match m.kind with
  | .reserved_slots n => n
  | _ => 0

/-- The size of a member, given the size `h` of `struct hw_device_t` (declared
in `hardware/hardware.h`) and the size `p` of a pointer. Every member after
the header is a pointer or an array of pointers, so no padding is counted. -/
def member.size (h p : Nat) (m : member) : Nat :=
  match m.kind with
  | .header => h
  | .operation => p
  | .reserved_slots n => n * p

/-- The offset of the member called `name` in a record with the given
members: the sizes of the members before it, or `none` if there is no such
member. -/
def offset_of (h p : Nat) : List member → String → Option Nat
  | [], _ => none
  | m :: ms, name =>
      if m.name = name then some 0
      else (offset_of h p ms name).map (fun o => m.size h p + o)

/-! ## Documented return codes -/

/-- Modelled from the spec: the standard OS error number `ENOENT` of
`<errno.h>`, which the header names but does not define. -/
def ENOENT : Int := 2

/-- Modelled from the spec: the standard OS error number `EBUSY` of
`<errno.h>`, which the header names but does not define. -/
def EBUSY : Int := 16

/-- Modelled from the spec: the standard OS error number `EEXIST` of
`<errno.h>`, which the header names but does not define. -/
def EEXIST : Int := 17

/-- Modelled from the spec: the standard OS error number `EINVAL` of
`<errno.h>`, which the header names but does not define. -/
def EINVAL : Int := 22

/-- The four operations of `tv_input_device_t` (`initialize_op` stands for the
member `initialize`). -/
inductive operation where
  | initialize_op
  | get_stream_configurations
  | open_stream
  | close_stream
  deriving DecidableEq

/-- Modelled from the spec: the state of an initialised device, whose
implementation is not part of the header. It holds the devices announced as
available, the current stream configurations of each (by device id), and the
streams that are open (device id, stream id). -/
structure device_state where
  devices : List tv_input_device_info_t
  configs : List (Int × tv_stream_config_t)
  open_streams : List (Int × Int)
  deriving DecidableEq

/-- Modelled from the spec: the state right after `initialize`, whose body is
not part of the header ("Before this call, no devices are considered
available"; no stream is open). -/
def device_state.initial : device_state :=
  { devices := [], configs := [], open_streams := [] }

/-- Modelled from the spec: a device id is valid when it names a device that
is currently available (the check is part of the missing implementation). -/
def device_state.valid_device (st : device_state) (d : Int) : Bool :=
  st.devices.any (fun i => decide (i.device_id = d))

/-- Modelled from the spec: a stream id is valid for a device when it names
one of the device's current stream configurations ("stream identifiers are
meaningful only relative to a specific device's current configuration set";
the check is part of the missing implementation). -/
def device_state.valid_stream (st : device_state) (d s : Int) : Bool :=
  st.configs.any (fun c => decide (c.1 = d) && decide (c.2.stream_id = s))

/-- Modelled from the spec: whether the stream `s` of device `d` is open (the
bookkeeping is part of the missing implementation). -/
def device_state.is_open (st : device_state) (d s : Int) : Bool :=
  st.open_streams.any (fun o => decide (o.1 = d) && decide (o.2 = s))

/-- Modelled from the spec: the missing body of `get_stream_configurations`.
"Returns the current set of stream configurations for a device ... Returns
success or failure (invalid device)"; an invalid device id returns
invalid-argument. The state does not change. -/
def get_stream_configurations (st : device_state) (d : Int) :
    Int × List tv_stream_config_t :=
  if st.valid_device d then
    (0, (st.configs.filter (fun c => decide (c.1 = d))).map (fun c => c.2))
  else (-EINVAL, [])

/-- Modelled from the spec: the missing body of `open_stream`. "Outcomes:
success (stream handle populated); resource conflict (another stream must be
closed first); already-open (idempotent open rejected); invalid device or
stream identifier". Invalid identifiers return invalid-argument in any
operation, an open stream is reported as already open, and `conflict` (a
property of the hardware: whether the streams that are open block the one
asked for) decides the resource conflict. A failed call leaves the state
unchanged. -/
def open_stream (conflict : List (Int × Int) → Int → Int → Bool)
    (st : device_state) (d s : Int) : Int × device_state :=
  if !(st.valid_device d && st.valid_stream d s) then (-EINVAL, st)
  else if st.is_open d s then (-EEXIST, st)
  else if conflict st.open_streams d s then (-EBUSY, st)
  else (0, { st with open_streams := (d, s) :: st.open_streams })

/-- Modelled from the spec: the missing body of `close_stream`. "Outcomes:
success; not-found (stream wasn't open); invalid identifiers". Invalid
identifiers return invalid-argument in any operation. A failed call leaves
the state unchanged. -/
def close_stream (st : device_state) (d s : Int) : Int × device_state :=
  if !(st.valid_device d && st.valid_stream d s) then (-EINVAL, st)
  else if !(st.is_open d s) then (-ENOENT, st)
  else (0, { st with open_streams :=
    st.open_streams.filter (fun o => !(decide (o.1 = d) && decide (o.2 = s))) })

/-- Modelled from the spec: what the hardware side of the missing
implementation does when it emits a notification. A device that becomes
available comes with its stream configurations, and so does a change of
configurations. -/
inductive hal_event where
  | device_available (info : tv_input_device_info_t) (configs : List tv_stream_config_t)
  | device_unavailable (d : Int)
  | stream_configurations_changed (d : Int) (configs : List tv_stream_config_t)
  deriving DecidableEq

/-- Modelled from the spec: the effect of a notification on the state of the
missing implementation. A device that becomes available is added with its
configurations (a second announcement of an available device changes
nothing); a device that becomes unavailable is removed with its
configurations and its open streams; a change of configurations replaces the
configurations of the device and resets "all open streams on a device back
to closed". -/
def device_state.notify (st : device_state) : hal_event → device_state
  | .device_available info configs =>
      if st.valid_device info.device_id then st
      else { st with
        devices := info :: st.devices
        configs := configs.map (fun c => (info.device_id, c)) ++ st.configs }
  | .device_unavailable d =>
      { devices := st.devices.filter (fun i => !decide (i.device_id = d))
        configs := st.configs.filter (fun c => !decide (c.1 = d))
        open_streams := st.open_streams.filter (fun o => !decide (o.1 = d)) }
  | .stream_configurations_changed d configs =>
      if st.valid_device d then
        { st with
          configs := configs.map (fun c => (d, c)) ++
            st.configs.filter (fun c => !decide (c.1 = d))
          open_streams := st.open_streams.filter (fun o => !decide (o.1 = d)) }
      else st

/-- Modelled from the spec: one step of the life of a device, a call of the
consumer through the operation table or a notification of the missing
implementation. -/
inductive step where
  | call_get_stream_configurations (d : Int)
  | call_open_stream (d s : Int)
  | call_close_stream (d s : Int)
  | event (e : hal_event)
  deriving DecidableEq

/-- Modelled from the spec: the state after one step of the missing
implementation. -/
def device_state.advance (conflict : List (Int × Int) → Int → Int → Bool)
    (st : device_state) : step → device_state
  | .call_get_stream_configurations _ => st
  | .call_open_stream d s => (open_stream conflict st d s).2
  | .call_close_stream d s => (close_stream st d s).2
  | .event e => st.notify e

/-- Modelled from the spec: the state after a sequence of steps of the
missing implementation. -/
def device_state.run (conflict : List (Int × Int) → Int → Int → Bool)
    (st : device_state) (steps : List step) : device_state :=
  steps.foldl (device_state.advance conflict) st

/-- Whether a step is one that ends the stream `s` of device `d` or takes its
identifiers away: `close_stream(d, s)`, or a notification that device `d` is
unavailable or that its stream configurations changed. -/
def step.resets (d s : Int) : step → Bool
  | .call_close_stream d1 s1 => decide (d1 = d) && decide (s1 = s)
  | .event (.device_unavailable d1) => decide (d1 = d)
  | .event (.stream_configurations_changed d1 _) => decide (d1 = d)
  | _ => false

/-- A hardware without resource conflicts. -/
def no_conflict : List (Int × Int) → Int → Int → Bool := fun _ _ _ => false

/-- A state with one available HDMI device, id 1, with one stream
configuration, id 7, and no open stream. -/
def one_device : device_state :=
  device_state.initial.notify
    (.device_available ⟨1, .TV_INPUT_TYPE_HDMI⟩
      [⟨7, .TV_STREAM_TYPE_INDEPENDENT_VIDEO_SOURCE, 1920, 1080⟩])

/-! ## Enumerations and constants: theorems -/

/-- C1: `tv_input_type_t` has exactly three members, with the values
HDMI = 1, built-in tuner = 2 and passthrough = 3; the mapping from member to
integer is injective and no member has the value 0. -/
theorem tv_input_type_values :
    tv_input_type_t.TV_INPUT_TYPE_HDMI.toInt = 1 ∧
    tv_input_type_t.TV_INPUT_TYPE_BUILT_IN_TUNER.toInt = 2 ∧
    tv_input_type_t.TV_INPUT_TYPE_PASSTHROUGH.toInt = 3 ∧
    (∀ t : tv_input_type_t, t ∈ tv_input_type_t.members) ∧
    tv_input_type_t.members.Nodup ∧
    tv_input_type_t.members.length = 3 ∧
    Function.Injective tv_input_type_t.toInt ∧
    (∀ t : tv_input_type_t, t.toInt ≠ 0) := by
  refine ⟨rfl, rfl, rfl, ?_, by decide, rfl, ?_, ?_⟩
  · intro t
    cases t <;> simp [tv_input_type_t.members]
  · intro a b hab
    cases a <;> cases b <;> simp [tv_input_type_t.toInt] at hab <;> rfl
  · intro t
    cases t <;> simp [tv_input_type_t.toInt]

/-- C2: `tv_input_event_type_t` has exactly three members, with the values
device-available = 1, device-unavailable = 2 and
stream-configurations-changed = 3; the mapping from member to integer is
injective and no member has the value 0. -/
theorem tv_input_event_type_values :
    tv_input_event_type_t.TV_INPUT_EVENT_DEVICE_AVAILABLE.toInt = 1 ∧
    tv_input_event_type_t.TV_INPUT_EVENT_DEVICE_UNAVAILABLE.toInt = 2 ∧
    tv_input_event_type_t.TV_INPUT_EVENT_STREAM_CONFIGURATIONS_CHANGED.toInt = 3 ∧
    (∀ t : tv_input_event_type_t, t ∈ tv_input_event_type_t.members) ∧
    tv_input_event_type_t.members.Nodup ∧
    tv_input_event_type_t.members.length = 3 ∧
    Function.Injective tv_input_event_type_t.toInt ∧
    (∀ t : tv_input_event_type_t, t.toInt ≠ 0) := by
  refine ⟨rfl, rfl, rfl, ?_, by decide, rfl, ?_, ?_⟩
  · intro t
    cases t <;> simp [tv_input_event_type_t.members]
  · intro a b hab
    cases a <;> cases b <;> simp [tv_input_event_type_t.toInt] at hab <;> rfl
  · intro t
    cases t <;> simp [tv_input_event_type_t.toInt]

/-- C3: `tv_stream_type_t` assigns 1 to independent-video-source, which is
its only member; 2 is set aside for the buffer producer type, no member has
the value 2, and reading the integer 2 yields no stream type (an integer
reads as a stream type exactly when it is 1). -/
theorem tv_stream_type_values :
    tv_stream_type_t.TV_STREAM_TYPE_INDEPENDENT_VIDEO_SOURCE.toInt = 1 ∧
    (∀ t : tv_stream_type_t, t = .TV_STREAM_TYPE_INDEPENDENT_VIDEO_SOURCE) ∧
    tv_stream_type_t.members = [.TV_STREAM_TYPE_INDEPENDENT_VIDEO_SOURCE] ∧
    TV_STREAM_TYPE_BUFFER_PRODUCER_reserved = 2 ∧
    (∀ t : tv_stream_type_t, t.toInt ≠ TV_STREAM_TYPE_BUFFER_PRODUCER_reserved) ∧
    tv_stream_type_t.ofInt 2 = none ∧
    tv_stream_type_t.ofInt 1 = some .TV_STREAM_TYPE_INDEPENDENT_VIDEO_SOURCE ∧
    (∀ (v : Int) (t : tv_stream_type_t), tv_stream_type_t.ofInt v = some t ↔ v = 1) := by
  refine ⟨rfl, ?_, rfl, rfl, ?_, by decide, by decide, ?_⟩
  · intro t
    cases t
    rfl
  · intro t
    cases t
    simp [tv_stream_type_t.toInt, TV_STREAM_TYPE_BUFFER_PRODUCER_reserved]
  · intro v t
    cases t
    by_cases hv : v = 1
    · subst hv
      simp [tv_stream_type_t.ofInt, tv_stream_type_t.members, tv_stream_type_t.toInt]
    · have hv1 : ¬ (1 : Int) = v := fun h => hv h.symm
      simp [tv_stream_type_t.ofInt, tv_stream_type_t.members, tv_stream_type_t.toInt, hv, hv1]

/-- C9: the module identifier is the 8-character string "tv_input", made of
lower-case letters and one underscore, without whitespace, and it differs
from the default device name "default". -/
theorem module_id_value :
    TV_INPUT_HARDWARE_MODULE_ID = "tv_input" ∧
    TV_INPUT_HARDWARE_MODULE_ID.length = 8 ∧
    TV_INPUT_HARDWARE_MODULE_ID.toList = ['t', 'v', '_', 'i', 'n', 'p', 'u', 't'] ∧
    TV_INPUT_HARDWARE_MODULE_ID.toList.all (fun c => c.isLower || c == '_') = true ∧
    TV_INPUT_HARDWARE_MODULE_ID.toList.any (fun c => c.isWhitespace) = false ∧
    TV_INPUT_DEFAULT_DEVICE = "default" ∧
    TV_INPUT_HARDWARE_MODULE_ID ≠ TV_INPUT_DEFAULT_DEVICE := by
  refine ⟨rfl, by decide, rfl, by decide, by decide, rfl, by decide⟩

/-! ## The device record: theorems -/

/-- C10: `tv_input_device_t` consists of the common device header first, then
exactly four operations in the order initialize, get_stream_configurations,
open_stream, close_stream, then exactly 16 reserved slots in one last member;
the reserved slots come after every operation, and the offset of an operation
stays the same whatever members replace them. -/
theorem tv_input_device_layout (h p : Nat) :
    tv_input_device_t_members.map member.name =
      ["common", "initialize", "get_stream_configurations", "open_stream",
       "close_stream", "reserved"] ∧
    tv_input_device_t_members.head? = some ⟨"common", .header⟩ ∧
    (tv_input_device_t_members.filter member.is_operation).map member.name =
      ["initialize", "get_stream_configurations", "open_stream", "close_stream"] ∧
    tv_input_device_t_members.getLast? = some ⟨"reserved", .reserved_slots 16⟩ ∧
    (tv_input_device_t_members.map member.slots).sum = 16 ∧
    tv_input_device_t_members.take 5 ++ [⟨"reserved", .reserved_slots 16⟩] =
      tv_input_device_t_members ∧
    offset_of h p tv_input_device_t_members "common" = some 0 ∧
    offset_of h p tv_input_device_t_members "initialize" = some h ∧
    offset_of h p tv_input_device_t_members "get_stream_configurations" = some (h + p) ∧
    offset_of h p tv_input_device_t_members "open_stream" = some (h + (p + p)) ∧
    offset_of h p tv_input_device_t_members "close_stream" = some (h + (p + (p + p))) ∧
    offset_of h p tv_input_device_t_members "reserved" = some (h + (p + (p + (p + p)))) ∧
    (∀ (ext : List member) (m : member),
      m ∈ tv_input_device_t_members.filter member.is_operation →
      offset_of h p (tv_input_device_t_members.take 5 ++ ext) m.name =
        offset_of h p tv_input_device_t_members m.name) := by
  refine ⟨rfl, rfl, by decide, rfl, rfl, rfl, ?_, ?_, ?_, ?_, ?_, ?_, ?_⟩
  · simp [offset_of, tv_input_device_t_members]
  · simp [offset_of, tv_input_device_t_members, member.size]
  · simp [offset_of, tv_input_device_t_members, member.size]
  · simp [offset_of, tv_input_device_t_members, member.size]
  · simp [offset_of, tv_input_device_t_members, member.size]
  · simp [offset_of, tv_input_device_t_members, member.size]
  · intro ext m hm
    have hm4 : m = ⟨"initialize", .operation⟩ ∨ m = ⟨"get_stream_configurations", .operation⟩ ∨
        m = ⟨"open_stream", .operation⟩ ∨ m = ⟨"close_stream", .operation⟩ := by
      simpa [tv_input_device_t_members, member.is_operation, List.filter] using hm
    rcases hm4 with rfl | rfl | rfl | rfl <;>
      simp [offset_of, tv_input_device_t_members, member.size]

/-- Witness for C10 (pointer size 8, header size 120): the operation
`open_stream`, a member of the record, keeps its offset when the reserved
slots are replaced by a fifth operation and 15 reserved slots. -/
theorem tv_input_device_layout_witness :
    offset_of 120 8 (tv_input_device_t_members.take 5 ++
        [⟨"set_buffer", .operation⟩, ⟨"reserved", .reserved_slots 15⟩]) "open_stream" =
      offset_of 120 8 tv_input_device_t_members "open_stream" :=
  (tv_input_device_layout 120 8).2.2.2.2.2.2.2.2.2.2.2.2
    [⟨"set_buffer", .operation⟩, ⟨"reserved", .reserved_slots 15⟩]
    ⟨"open_stream", .operation⟩ (by decide)

/-! ## Events: theorems -/

/-- C8: an event is an event type with one device-info payload (device id,
input type). A device-available event carries both fields of the payload; a
device-unavailable or stream-configurations-changed event carries only the
device id. Two events of the same type other than device-available carry the
same information exactly when their device ids agree, whatever their type
fields hold; two device-available events carry the same information exactly
when device id and type both agree. -/
theorem event_relevant_fields :
    (∀ e : tv_input_event_t,
      e = ⟨e.type, ⟨e.device_info.device_id, e.device_info.type⟩⟩) ∧
    (∀ (d : Int) (t : tv_input_type_t),
      (tv_input_event_t.mk .TV_INPUT_EVENT_DEVICE_AVAILABLE ⟨d, t⟩).relevant =
        (.TV_INPUT_EVENT_DEVICE_AVAILABLE, d, some t)) ∧
    (∀ (d : Int) (t : tv_input_type_t),
      (tv_input_event_t.mk .TV_INPUT_EVENT_DEVICE_UNAVAILABLE ⟨d, t⟩).relevant =
        (.TV_INPUT_EVENT_DEVICE_UNAVAILABLE, d, none)) ∧
    (∀ (d : Int) (t : tv_input_type_t),
      (tv_input_event_t.mk .TV_INPUT_EVENT_STREAM_CONFIGURATIONS_CHANGED ⟨d, t⟩).relevant =
        (.TV_INPUT_EVENT_STREAM_CONFIGURATIONS_CHANGED, d, none)) ∧
    (∀ e1 e2 : tv_input_event_t, e1.type = e2.type →
      e1.type ≠ .TV_INPUT_EVENT_DEVICE_AVAILABLE →
      (e1.relevant = e2.relevant ↔ e1.device_info.device_id = e2.device_info.device_id)) ∧
    (∀ e1 e2 : tv_input_event_t, e1.type = .TV_INPUT_EVENT_DEVICE_AVAILABLE →
      e2.type = .TV_INPUT_EVENT_DEVICE_AVAILABLE →
      (e1.relevant = e2.relevant ↔
        e1.device_info.device_id = e2.device_info.device_id ∧
        e1.device_info.type = e2.device_info.type)) := by
  refine ⟨fun e => rfl, fun d t => rfl, fun d t => rfl, fun d t => rfl, ?_, ?_⟩
  · rintro ⟨t1, d1, i1⟩ ⟨t2, d2, i2⟩ ht hne
    simp only at ht hne
    subst ht
    cases t1 <;> simp_all [tv_input_event_t.relevant]
  · rintro ⟨t1, d1, i1⟩ ⟨t2, d2, i2⟩ h1 h2
    simp only at h1 h2
    subst h1 h2
    simp [tv_input_event_t.relevant]

/-- Witness for C8: two device-unavailable events for device 4 whose type
fields differ carry the same information, and two device-available events for
device 4 whose type fields differ do not. -/
theorem event_relevant_fields_witness :
    ((tv_input_event_t.mk .TV_INPUT_EVENT_DEVICE_UNAVAILABLE
        ⟨4, .TV_INPUT_TYPE_HDMI⟩).relevant =
      (tv_input_event_t.mk .TV_INPUT_EVENT_DEVICE_UNAVAILABLE
        ⟨4, .TV_INPUT_TYPE_PASSTHROUGH⟩).relevant) ∧
    ((tv_input_event_t.mk .TV_INPUT_EVENT_DEVICE_AVAILABLE
        ⟨4, .TV_INPUT_TYPE_HDMI⟩).relevant ≠
      (tv_input_event_t.mk .TV_INPUT_EVENT_DEVICE_AVAILABLE
        ⟨4, .TV_INPUT_TYPE_PASSTHROUGH⟩).relevant) :=
  ⟨(event_relevant_fields.2.2.2.2.1 _ _ rfl (by decide)).2 rfl,
   fun h => absurd ((event_relevant_fields.2.2.2.2.2 _ _ rfl rfl).1 h).2 (by decide)⟩

/-! ## Documented return codes: theorems -/

/-- An open stream with valid identifiers is reported as already open, and the
state is left as it is. -/
theorem open_stream_of_open (conflict : List (Int × Int) → Int → Int → Bool)
    (st : device_state) (d s : Int) (hd : st.valid_device d = true)
    (hs : st.valid_stream d s = true) (ho : st.is_open d s = true) :
    open_stream conflict st d s = (-EEXIST, st) := by
  simp [open_stream, hd, hs, ho]

/-- After a successful `open_stream` the identifiers are valid and the stream
is open. -/
theorem open_stream_success (conflict : List (Int × Int) → Int → Int → Bool)
    (st : device_state) (d s : Int) (h : (open_stream conflict st d s).1 = 0) :
    (open_stream conflict st d s).2.valid_device d = true ∧
    (open_stream conflict st d s).2.valid_stream d s = true ∧
    (open_stream conflict st d s).2.is_open d s = true := by
  unfold open_stream at h ⊢
  split_ifs at h ⊢ with h1 h2 h3
  · simp [EINVAL] at h
  · simp [EEXIST] at h
  · simp [EBUSY] at h
  · simp only [Bool.not_eq_true', Bool.not_eq_false, Bool.and_eq_true,
      Bool.not_eq_true] at h1
    refine ⟨h1.1, h1.2, ?_⟩
    simp [device_state.is_open]

/-- A step that does not reset the stream `s` of device `d` keeps its
identifiers valid and the stream open. -/
theorem advance_keeps_open (conflict : List (Int × Int) → Int → Int → Bool)
    (st : device_state) (d s : Int) (x : step) (hx : x.resets d s = false)
    (hd : st.valid_device d = true) (hs : st.valid_stream d s = true)
    (ho : st.is_open d s = true) :
    (st.advance conflict x).valid_device d = true ∧
    (st.advance conflict x).valid_stream d s = true ∧
    (st.advance conflict x).is_open d s = true := by
  cases x with
  | call_get_stream_configurations d1 => exact ⟨hd, hs, ho⟩
  | call_open_stream d1 s1 =>
    simp only [device_state.advance, open_stream]
    split_ifs
    · exact ⟨hd, hs, ho⟩
    · exact ⟨hd, hs, ho⟩
    · exact ⟨hd, hs, ho⟩
    · refine ⟨hd, hs, ?_⟩
      simp only [device_state.is_open, List.any_cons] at ho ⊢
      simp [ho]
  | call_close_stream d1 s1 =>
    simp only [device_state.advance, close_stream]
    split_ifs
    · exact ⟨hd, hs, ho⟩
    · exact ⟨hd, hs, ho⟩
    · refine ⟨hd, hs, ?_⟩
      simp only [step.resets, Bool.and_eq_false_iff, decide_eq_false_iff_not] at hx
      simp only [device_state.is_open, List.any_eq_true, Bool.and_eq_true,
        decide_eq_true_eq, List.mem_filter, Bool.not_eq_true', Bool.and_eq_false_iff,
        decide_eq_false_iff_not] at ho ⊢
      obtain ⟨o, hmem, ho1, ho2⟩ := ho
      refine ⟨o, ⟨hmem, ?_⟩, ho1, ho2⟩
      rcases hx with hx | hx
      · exact Or.inl (fun h => hx (h.symm.trans ho1))
      · exact Or.inr (fun h => hx (h.symm.trans ho2))
  | event e =>
    cases e with
    | device_available info configs =>
      simp only [device_state.advance, device_state.notify]
      split_ifs
      · exact ⟨hd, hs, ho⟩
      · refine ⟨?_, ?_, ho⟩
        · simp only [device_state.valid_device, List.any_cons] at hd ⊢
          simp [hd]
        · simp only [device_state.valid_stream, List.any_append] at hs ⊢
          simp [hs]
    | device_unavailable d1 =>
      simp only [step.resets, decide_eq_false_iff_not] at hx
      simp only [device_state.advance, device_state.notify]
      refine ⟨?_, ?_, ?_⟩
      · simp only [device_state.valid_device, List.any_eq_true, decide_eq_true_eq,
          List.mem_filter, Bool.not_eq_true', decide_eq_false_iff_not] at hd ⊢
        obtain ⟨i, hmem, hi⟩ := hd
        exact ⟨i, ⟨hmem, fun h => hx (h.symm.trans hi)⟩, hi⟩
      · simp only [device_state.valid_stream, List.any_eq_true, Bool.and_eq_true,
          decide_eq_true_eq, List.mem_filter, Bool.not_eq_true',
          decide_eq_false_iff_not] at hs ⊢
        obtain ⟨c, hmem, hc1, hc2⟩ := hs
        exact ⟨c, ⟨hmem, fun h => hx (h.symm.trans hc1)⟩, hc1, hc2⟩
      · simp only [device_state.is_open, List.any_eq_true, Bool.and_eq_true,
          decide_eq_true_eq, List.mem_filter, Bool.not_eq_true',
          decide_eq_false_iff_not] at ho ⊢
        obtain ⟨o, hmem, ho1, ho2⟩ := ho
        exact ⟨o, ⟨hmem, fun h => hx (h.symm.trans ho1)⟩, ho1, ho2⟩
    | stream_configurations_changed d1 configs =>
      simp only [step.resets, decide_eq_false_iff_not] at hx
      simp only [device_state.advance, device_state.notify]
      split_ifs
      · refine ⟨hd, ?_, ?_⟩
        · simp only [device_state.valid_stream, List.any_eq_true, Bool.and_eq_true,
            decide_eq_true_eq, List.mem_append, List.mem_filter, Bool.not_eq_true',
            decide_eq_false_iff_not] at hs ⊢
          obtain ⟨c, hmem, hc1, hc2⟩ := hs
          exact ⟨c, Or.inr ⟨hmem, fun h => hx (h.symm.trans hc1)⟩, hc1, hc2⟩
        · simp only [device_state.is_open, List.any_eq_true, Bool.and_eq_true,
            decide_eq_true_eq, List.mem_filter, Bool.not_eq_true',
            decide_eq_false_iff_not] at ho ⊢
          obtain ⟨o, hmem, ho1, ho2⟩ := ho
          exact ⟨o, ⟨hmem, fun h => hx (h.symm.trans ho1)⟩, ho1, ho2⟩
      · exact ⟨hd, hs, ho⟩

/-- A sequence of steps none of which resets the stream `s` of device `d`
keeps its identifiers valid and the stream open. -/
theorem run_keeps_open (conflict : List (Int × Int) → Int → Int → Bool)
    (d s : Int) (steps : List step) :
    ∀ st : device_state, (∀ x ∈ steps, x.resets d s = false) →
      st.valid_device d = true → st.valid_stream d s = true → st.is_open d s = true →
      (st.run conflict steps).valid_device d = true ∧
      (st.run conflict steps).valid_stream d s = true ∧
      (st.run conflict steps).is_open d s = true := by
  induction steps with
  | nil => intro st _ hd hs ho; exact ⟨hd, hs, ho⟩
  | cons x xs ih =>
    intro st hsteps hd hs ho
    have hx := advance_keeps_open conflict st d s x (hsteps x (List.mem_cons_self x xs)) hd hs ho
    have := ih (st.advance conflict x) (fun y hy => hsteps y (List.mem_cons_of_mem x hy))
      hx.1 hx.2.1 hx.2.2
    simpa [device_state.run] using this

/-- A step other than the call `open_stream(d, s)` leaves a stream that is not
open not open. -/
theorem advance_keeps_closed (conflict : List (Int × Int) → Int → Int → Bool)
    (st : device_state) (d s : Int) (x : step) (hx : x ≠ .call_open_stream d s)
    (hc : st.is_open d s = false) : (st.advance conflict x).is_open d s = false := by
  have hfilter : ∀ (keep : Int × Int → Bool),
      (st.open_streams.filter keep).any
        (fun o => decide (o.1 = d) && decide (o.2 = s)) = false := by
    intro keep
    simp only [device_state.is_open, List.any_eq_false, Bool.and_eq_true,
      decide_eq_true_eq, List.mem_filter] at hc ⊢
    exact fun o ho => hc o ho.1
  cases x with
  | call_get_stream_configurations d1 => exact hc
  | call_open_stream d1 s1 =>
    simp only [device_state.advance, open_stream]
    split_ifs
    · exact hc
    · exact hc
    · exact hc
    · have hne : ¬ (d1 = d ∧ s1 = s) := fun h => hx (by rw [h.1, h.2])
      simp only [device_state.is_open, List.any_cons] at hc ⊢
      simp only [hc, Bool.or_false, Bool.and_eq_false_iff, decide_eq_false_iff_not]
      by_cases h1 : d1 = d
      · exact Or.inr (fun h2 => hne ⟨h1, h2⟩)
      · exact Or.inl h1
  | call_close_stream d1 s1 =>
    simp only [device_state.advance, close_stream]
    split_ifs
    · exact hc
    · exact hc
    · exact hfilter _
  | event e =>
    cases e with
    | device_available info configs =>
      simp only [device_state.advance, device_state.notify]
      split_ifs
      · exact hc
      · exact hc
    | device_unavailable d1 => exact hfilter _
    | stream_configurations_changed d1 configs =>
      simp only [device_state.advance, device_state.notify]
      split_ifs
      · exact hfilter _
      · exact hc

/-- A stream that was never opened is not open: after any steps from the
initial state without a call `open_stream(d, s)`, the stream `s` of device `d`
is not open. -/
theorem never_opened_is_closed (conflict : List (Int × Int) → Int → Int → Bool)
    (d s : Int) (steps : List step) (hsteps : ∀ x ∈ steps, x ≠ .call_open_stream d s) :
    (device_state.initial.run conflict steps).is_open d s = false := by
  have key : ∀ (xs : List step) (st : device_state),
      (∀ x ∈ xs, x ≠ .call_open_stream d s) → st.is_open d s = false →
      (st.run conflict xs).is_open d s = false := by
    intro xs
    induction xs with
    | nil => intro st _ hc; exact hc
    | cons x xs ih =>
      intro st hxs hc
      have h1 := advance_keeps_closed conflict st d s x (hxs x (List.mem_cons_self x xs)) hc
      have := ih (st.advance conflict x) (fun y hy => hxs y (List.mem_cons_of_mem x hy)) h1
      simpa [device_state.run] using this
  exact key steps _ hsteps rfl

/-! ## The device model: theorems -/

/-- C5, counterexample: on a device with one stream configuration (device 1,
stream 7), `open_stream(1, 7)` succeeds; a stream-configurations-changed
notification for device 1 follows and `close_stream` is never called; the next
`open_stream(1, 7)` succeeds again instead of returning `-EEXIST`. If the
device is announced unavailable instead, the next `open_stream(1, 7)` returns
`-EINVAL`. -/
theorem open_stream_after_configurations_changed :
    (open_stream no_conflict one_device 1 7).1 = 0 ∧
    (∀ x ∈ [step.event (.stream_configurations_changed 1
        [⟨7, .TV_STREAM_TYPE_INDEPENDENT_VIDEO_SOURCE, 1920, 1080⟩])],
      ∀ d s : Int, x ≠ step.call_close_stream d s) ∧
    (open_stream no_conflict
      ((open_stream no_conflict one_device 1 7).2.run no_conflict
        [step.event (.stream_configurations_changed 1
          [⟨7, .TV_STREAM_TYPE_INDEPENDENT_VIDEO_SOURCE, 1920, 1080⟩])]) 1 7).1 = 0 ∧
    (open_stream no_conflict
      ((open_stream no_conflict one_device 1 7).2.run no_conflict
        [step.event (.device_unavailable 1)]) 1 7).1 = -EINVAL ∧
    -EINVAL ≠ -EEXIST ∧ (0 : Int) ≠ -EEXIST := by
  refine ⟨by decide, ?_, by decide, by decide, by decide, by decide⟩
  intro x hx d s
  simp only [List.mem_singleton] at hx
  subst hx
  simp

/-- C5, amended: if `open_stream(d, s)` has returned success and since then
`close_stream(d, s)` has not been called and no notification has announced
that device `d` is unavailable or that its stream configurations changed,
then the next `open_stream(d, s)` returns `-EEXIST`, which is not success,
and leaves the state as it is. -/
theorem open_stream_twice (conflict : List (Int × Int) → Int → Int → Bool)
    (st : device_state) (d s : Int) (steps : List step)
    (hopen : (open_stream conflict st d s).1 = 0)
    (hsteps : ∀ x ∈ steps, x.resets d s = false) :
    open_stream conflict ((open_stream conflict st d s).2.run conflict steps) d s =
      (-EEXIST, (open_stream conflict st d s).2.run conflict steps) ∧
    -EEXIST ≠ 0 := by
  have h0 := open_stream_success conflict st d s hopen
  have h1 := run_keeps_open conflict d s steps _ hsteps h0.1 h0.2.1 h0.2.2
  exact ⟨open_stream_of_open conflict _ d s h1.1 h1.2.1 h1.2.2, by decide⟩

/-- Witness for C5, amended: after `open_stream(1, 7)` succeeded, a query of
the configurations, a failed `open_stream(1, 8)`, a `close_stream(1, 8)` and
the announcement of a second device do not reset the stream, and the next
`open_stream(1, 7)` returns `-EEXIST`. -/
theorem open_stream_twice_witness :
    (open_stream no_conflict one_device 1 7).1 = 0 ∧
    (open_stream no_conflict
      ((open_stream no_conflict one_device 1 7).2.run no_conflict
        [.call_get_stream_configurations 1, .call_open_stream 1 8, .call_close_stream 1 8,
         .event (.device_available ⟨2, .TV_INPUT_TYPE_PASSTHROUGH⟩ [])]) 1 7).1 = -EEXIST :=
  ⟨by decide,
   congrArg Prod.fst (open_stream_twice no_conflict one_device 1 7
    [.call_get_stream_configurations 1, .call_open_stream 1 8, .call_close_stream 1 8,
     .event (.device_available ⟨2, .TV_INPUT_TYPE_PASSTHROUGH⟩ [])]
    (by decide) (by decide)).1⟩

/-- C6, counterexample: right after initialisation no stream was ever opened,
no device is available, and `close_stream(1, 7)` returns `-EINVAL`, not
`-ENOENT`. -/
theorem close_stream_invalid_never_opened :
    device_state.initial.is_open 1 7 = false ∧
    device_state.initial.open_streams = [] ∧
    close_stream device_state.initial 1 7 = (-EINVAL, device_state.initial) ∧
    -EINVAL ≠ -ENOENT := by
  decide

/-- C6, amended: `close_stream(d, s)` for a stream that is not open never
returns success and leaves the state as it is; it returns `-ENOENT` when `d`
and `s` are valid identifiers (and `-EINVAL` when they are not). -/
theorem close_stream_not_open (st : device_state) (d s : Int)
    (hclosed : st.is_open d s = false) :
    (close_stream st d s).1 ≠ 0 ∧
    (close_stream st d s).2 = st ∧
    (st.valid_device d = true → st.valid_stream d s = true →
      close_stream st d s = (-ENOENT, st)) ∧
    (st.valid_device d = false ∨ st.valid_stream d s = false →
      close_stream st d s = (-EINVAL, st)) := by
  refine ⟨?_, ?_, ?_, ?_⟩
  · unfold close_stream
    split_ifs <;> simp_all [EINVAL, ENOENT]
  · unfold close_stream
    split_ifs <;> simp_all
  · intro hd hs
    simp [close_stream, hd, hs, hclosed]
  · intro h
    rcases h with h | h <;> simp [close_stream, h]

/-- Witness for C6, amended: on the device with one stream configuration
(device 1, stream 7) and no open stream, `close_stream(1, 7)` returns
`-ENOENT`. -/
theorem close_stream_not_open_witness :
    one_device.is_open 1 7 = false ∧
    close_stream one_device 1 7 = (-ENOENT, one_device) :=
  ⟨by decide, (close_stream_not_open one_device 1 7 (by decide)).2.2.1 (by decide) (by decide)⟩

/-- C7: when the device id or the stream id is invalid, `open_stream` and
`close_stream` return `-EINVAL`, and so does `get_stream_configurations` for
an invalid device id; `-EINVAL` is not success, so none of them succeeds or
passes for a call that did its work, and the state is left as it is. -/
theorem invalid_identifiers (conflict : List (Int × Int) → Int → Int → Bool)
    (st : device_state) (d s : Int)
    (hinvalid : st.valid_device d = false ∨ st.valid_stream d s = false) :
    open_stream conflict st d s = (-EINVAL, st) ∧
    close_stream st d s = (-EINVAL, st) ∧
    (st.valid_device d = false → get_stream_configurations st d = (-EINVAL, [])) ∧
    -EINVAL ≠ 0 := by
  refine ⟨?_, ?_, ?_, by decide⟩
  · rcases hinvalid with h | h <;> simp [open_stream, h]
  · rcases hinvalid with h | h <;> simp [close_stream, h]
  · intro h
    simp [get_stream_configurations, h]

/-- Witness for C7: on the device with one stream configuration (device 1,
stream 7), the stream id 8 is invalid and `open_stream(1, 8)` and
`close_stream(1, 8)` return `-EINVAL`. -/
theorem invalid_identifiers_witness :
    one_device.valid_stream 1 8 = false ∧
    open_stream no_conflict one_device 1 8 = (-EINVAL, one_device) ∧
    close_stream one_device 1 8 = (-EINVAL, one_device) :=
  ⟨by decide,
   (invalid_identifiers no_conflict one_device 1 8 (Or.inr (by decide))).1,
   (invalid_identifiers no_conflict one_device 1 8 (Or.inr (by decide))).2.1⟩

end TvInput
